import Mathlib

/-!
Verification development for the cogs202 logistic-regression notebook.

The notebook's own code consists of a checksum-verified data download
block, a loader `load_steinmetz_data`, and two fill-in-the-blank student
exercise functions (`sigmoid`, `compute_accuracy`) whose shipped bodies
raise `NotImplementedError` before any computation. The download block and
the loader are embedded from the source; the exercise contracts (whose
implementations are absent from the repository by design) are modelled
from the specification.
-/

/-! ## Data retrieval block (source: hidden "Data retrieval and loading" cell) -/

/-- Byte strings are modelled as lists of byte values. -/
abbrev Bytes := List Nat

/-- The fixed remote URL the notebook downloads from. -/
def url : String := "https://osf.io/r9gh8/download"

/-- The name of the local cache file. -/
def fname : String := "W1D4_steinmetz_data.npz"

/-- The expected MD5 hex digest of the downloaded content. -/
def expected_md5 : String := "d19716354fed0981267456b80db07ea8"

/-- The success status code compared against, `requests.codes.ok`. -/
def codes_ok : Nat := 200

/-- Outcome of the single `requests.get(url)` call: either the request
raises `requests.ConnectionError`, or it returns a response carrying a
status code and a content body. -/
inductive GetOutcome
  | connectionError
  | response (status_code : Nat) (content : Bytes)
deriving DecidableEq

/-- Observable effects of one run of the data-retrieval block: the lines
printed, the local cache file afterwards (`none` when absent), and the
list of URLs against which an HTTP GET was issued. -/
structure RetrievalTrace where
  printed : List String
  file : Option Bytes
  gets : List String
deriving DecidableEq

/-- The data-retrieval block of the notebook. `md5hex` stands for the
external `hashlib.md5(.).hexdigest()` routine, `initFile` is the content
of the local file `fname` before the block runs (`none` when
`os.path.isfile` is false), and `net` is what the one `requests.get(url)`
call would produce. Mirrors the source: if the file exists nothing
happens; otherwise one GET is issued; a connection error or a non-ok
status prints a failure message, a digest mismatch prints a corruption
message, and only otherwise is the content written to the file. -/
def dataRetrievalBlock (md5hex : Bytes → String) (initFile : Option Bytes)
    (net : GetOutcome) : RetrievalTrace :=
  match initFile with
  | some c => { printed := [], file := some c, gets := [] }
  | none =>
    match net with
    | GetOutcome.connectionError =>
        { printed := ["!!! Failed to download data !!!"], file := none, gets := [url] }
    | GetOutcome.response status_code content =>
        if status_code ≠ codes_ok then
          { printed := ["!!! Failed to download data !!!"], file := none, gets := [url] }
        else if md5hex content ≠ expected_md5 then
          { printed := ["!!! Data download appears corrupted !!!"], file := none, gets := [url] }
        else
          { printed := [], file := some content, gets := [url] }

/-! ## Loader `load_steinmetz_data` (source lines 218-223) -/

/-- Python errors observable in the embedded fragments. -/
inductive PyError
  | notImplementedError (msg : String)
  | fileNotFoundError (name : String)
deriving DecidableEq

/-- Whether key `k` is present in dictionary `d` (association list in
insertion order). -/
def dictMem {α : Type} (d : List (String × α)) (k : String) : Bool :=
  d.any (fun p => p.1 = k)

/-- Insert `(k, v)` into a Python dictionary modelled as an association
list in insertion order: an existing key is overwritten in place, a new
key is appended. -/
def dictInsert {α : Type} (d : List (String × α)) (k : String) (v : α) :
    List (String × α) :=
  if dictMem d k then d.map (fun p => if p.1 = k then (k, v) else p)
  else d ++ [(k, v)]

/-- `dict(**dobj)`: build a dictionary from the named members of `dobj`,
inserting them in order. -/
def dict_kwargs {α : Type} (l : List (String × α)) : List (String × α) :=
  l.foldl (fun d p => dictInsert d p.1 p.2) []

/-- `np.load(data_fname)`: opens the named archive file through the
filesystem `fs`; a missing file raises `FileNotFoundError`, otherwise the
archive's named arrays are returned. -/
def np_load {α : Type} (fs : String → Option (List (String × α)))
    (data_fname : String) : Except PyError (List (String × α)) :=
  match fs data_fname with
  | none => Except.error (PyError.fileNotFoundError data_fname)
  | some a => Except.ok a

/-- `load_steinmetz_data`: opens the archive with `np.load` and
materializes it into a dict mapping each field name to its array. A
file-open error propagates to the caller uncaught. -/
def load_steinmetz_data {α : Type} (fs : String → Option (List (String × α)))
    (data_fname : String) : Except PyError (List (String × α)) := do
  let dobj ← np_load fs data_fname
  let data := dict_kwargs dobj
  return data

/-! ## Shipped exercise stubs (source lines 289-298 and 503-523) -/

/-- A Python value: only the `Ellipsis` placeholder appears in the dead
code of the shipped stubs. -/
inductive PyVal
  | ellipsis
deriving DecidableEq

/-- A fitted scikit-learn classifier, seen through its `predict` method. -/
structure SKModel where
  predict : List (List ℝ) → List ℝ

/-- The `sigmoid` function exactly as shipped in the notebook: the body
raises `NotImplementedError` first, then (dead code) assigns the `...`
placeholder and returns it. -/
def sigmoid (z : ℝ) : Except PyError PyVal := do
  let _ ← (Except.error (PyError.notImplementedError
      "Student exercise: implement the sigmoid function") : Except PyError Unit)
  let s : PyVal := PyVal.ellipsis
  return s

/-- The `compute_accuracy` function exactly as shipped in the notebook:
the body raises `NotImplementedError` first, then (dead code) computes
`y_pred = model.predict(X)`, assigns the `...` placeholder to `accuracy`
and returns it. -/
def compute_accuracy (X : List (List ℝ)) (y : List ℝ) (model : SKModel) :
    Except PyError PyVal := do
  let _ ← (Except.error (PyError.notImplementedError
      "Implement the compute_accuracy function") : Except PyError Unit)
  let _y_pred := model.predict X
  let accuracy : PyVal := PyVal.ellipsis
  return accuracy

/-! ## Spec-modelled exercise contracts -/

/-- Modelled from the spec: the sigmoid implementation is absent from the
repository (the shipped `sigmoid` is a fill-in-the-blank stub); spec
section 4.1 gives its contract "given a real-valued scalar or array input
z, returns 1/(1+exp(-z)) elementwise". -/
noncomputable def sigmoid_spec (z : ℝ) : ℝ := 1 / (1 + Real.exp (-z))

/-- Modelled from the spec: elementwise application of the sigmoid
contract to an array input. -/
noncomputable def sigmoid_vec (zs : List ℝ) : List ℝ := zs.map sigmoid_spec

/-- Error condition of the spec's accuracy-scorer contract. -/
inductive AccError
  | invalidInput
deriving DecidableEq

/-- Number of positions at which two label vectors agree. -/
def countMatches : List Bool → List Bool → Nat
  | a :: as, b :: bs => (if a = b then 1 else 0) + countMatches as bs
  | _, _ => 0

/-- Modelled from the spec: the accuracy-scorer implementation is absent
from the repository (the shipped `compute_accuracy` is a
fill-in-the-blank stub); spec section 4.2 gives its contract "given
predicted labels and true labels of equal length, returns the fraction of
positions where they match, as a value in [0,1]. Fails with an
InvalidInput condition if lengths differ." -/
def accuracy (yPred yTrue : List Bool) : Except AccError ℚ :=
  if yPred.length = yTrue.length then
    Except.ok ((countMatches yPred yTrue : ℚ) / (yTrue.length : ℚ))
  else Except.error AccError.invalidInput

/-! ## Helper lemmas -/

theorem countMatches_self (l : List Bool) : countMatches l l = l.length := by
  induction l with
  | nil => rfl
  | cons a as ih => simp [countMatches, ih, Nat.add_comm]

theorem countMatches_map_not (l : List Bool) : countMatches (l.map not) l = 0 := by
  induction l with
  | nil => rfl
  | cons a as ih => cases a <;> simp [countMatches, ih]

theorem countMatches_le (a b : List Bool) : countMatches a b ≤ b.length := by
  induction b generalizing a with
  | nil => cases a <;> simp [countMatches]
  | cons y ys ih =>
    cases a with
    | nil => simp [countMatches]
    | cons x xs =>
      have := ih xs
      by_cases h : x = y <;> simp [countMatches, h] <;> omega

theorem dictMem_append {α : Type} (d e : List (String × α)) (k : String) :
    dictMem (d ++ e) k = (dictMem d k || dictMem e k) := by
  simp [dictMem, List.any_append]

theorem foldl_dictInsert_fresh {α : Type} :
    ∀ (l d : List (String × α)),
      (∀ k, k ∈ l.map Prod.fst → dictMem d k = false) →
      (l.map Prod.fst).Nodup →
      l.foldl (fun d p => dictInsert d p.1 p.2) d = d ++ l := by
  intro l
  induction l with
  | nil => intro d _ _; simp
  | cons p rest ih =>
    intro d hfresh hnd
    have hdk : dictMem d p.1 = false := hfresh p.1 (by simp)
    have hstep : dictInsert d p.1 p.2 = d ++ [p] := by
      simp [dictInsert, hdk]
    have hnp : p.1 ∉ rest.map Prod.fst := by
      have := hnd
      simp only [List.map_cons, List.nodup_cons] at this
      exact this.1
    have hfresh2 : ∀ k, k ∈ rest.map Prod.fst → dictMem (d ++ [p]) k = false := by
      intro k hk
      have h1 : dictMem d k = false := hfresh k (by simp [hk])
      have h2 : dictMem [p] k = false := by
        have hkp : p.1 ≠ k := fun h => hnp (h ▸ hk)
        simp [dictMem, hkp]
      rw [dictMem_append, h1, h2]
      rfl
    have hnd2 : (rest.map Prod.fst).Nodup := by
      simp only [List.map_cons, List.nodup_cons] at hnd
      exact hnd.2
    calc (p :: rest).foldl (fun d p => dictInsert d p.1 p.2) d
        = rest.foldl (fun d p => dictInsert d p.1 p.2) (d ++ [p]) := by
          simp [List.foldl_cons, hstep]
      _ = (d ++ [p]) ++ rest := ih (d ++ [p]) hfresh2 hnd2
      _ = d ++ (p :: rest) := by simp

theorem dict_kwargs_nodup {α : Type} (l : List (String × α))
    (hnd : (l.map Prod.fst).Nodup) : dict_kwargs l = l := by
  have h := foldl_dictInsert_fresh l []
    (by intro k _; simp [dictMem]) hnd
  simpa [dict_kwargs] using h

/-! ## Claim theorems -/

/-- Claim C1: when the local file is absent and the fetch raises a
connection error, returns a non-success HTTP status, or returns content
whose MD5 digest differs from the expected value, the block reports an
error and the local cache file is neither created nor retained. -/
theorem dataRetrieval_failure_leaves_no_file (md5hex : Bytes → String)
    (net : GetOutcome)
    (hfail : net = GetOutcome.connectionError ∨
      ∃ s c, net = GetOutcome.response s c ∧
        (s ≠ codes_ok ∨ md5hex c ≠ expected_md5)) :
    (dataRetrievalBlock md5hex none net).printed ≠ [] ∧
    (dataRetrievalBlock md5hex none net).file = none := by
  rcases hfail with h | ⟨s, c, h, hcase⟩
  · subst h; simp [dataRetrievalBlock]
  · subst h
    by_cases hs : s = codes_ok
    · rcases hcase with hbad | hmd5
      · exact absurd hs hbad
      · simp [dataRetrievalBlock, hs, hmd5]
    · simp [dataRetrievalBlock, hs]

/-- Witness for C1 at a concrete failing fetch (a connection error). -/
theorem dataRetrieval_failure_leaves_no_file_witness :
    (dataRetrievalBlock (fun _ => "") none GetOutcome.connectionError).printed ≠ [] ∧
    (dataRetrievalBlock (fun _ => "") none GetOutcome.connectionError).file = none :=
  dataRetrieval_failure_leaves_no_file (fun _ => "") GetOutcome.connectionError
    (Or.inl rfl)

/-- Claim C8: every run issues at most one HTTP GET, always against the
fixed URL, and a run that finds the local file already present issues
none. -/
theorem dataRetrieval_single_fetch (md5hex : Bytes → String)
    (initFile : Option Bytes) (net : GetOutcome) (c : Bytes) :
    ((dataRetrievalBlock md5hex initFile net).gets = [] ∨
      (dataRetrievalBlock md5hex initFile net).gets = [url]) ∧
    (dataRetrievalBlock md5hex (some c) net).gets = [] := by
  constructor
  · cases initFile with
    | some c2 => left; simp [dataRetrievalBlock]
    | none =>
      cases net with
      | connectionError => right; simp [dataRetrievalBlock]
      | response s cc =>
        by_cases hs : s = codes_ok
        · by_cases hm : md5hex cc = expected_md5
          · right; simp [dataRetrievalBlock, hs, hm]
          · right; simp [dataRetrievalBlock, hs, hm]
        · right; simp [dataRetrievalBlock, hs]
  · simp [dataRetrievalBlock]

/-- Claim C9: for every readable archive whose field names are distinct,
`load_steinmetz_data` deserializes it into a dictionary with exactly one
entry per named array of the archive. -/
theorem load_steinmetz_data_ok {α : Type}
    (fs : String → Option (List (String × α))) (archive : List (String × α))
    (hfs : fs fname = some archive) (hnd : (archive.map Prod.fst).Nodup) :
    load_steinmetz_data fs fname = Except.ok archive := by
  simp [load_steinmetz_data, np_load, hfs, dict_kwargs_nodup archive hnd]

/-- Witness for C9 at a concrete two-field archive. -/
theorem load_steinmetz_data_ok_witness :
    load_steinmetz_data
      (fun n => if n = fname then
        some [("spikes", [1, 2]), ("choices", [0, 1])] else none) fname =
      Except.ok [("spikes", ([1, 2] : List ℚ)), ("choices", [0, 1])] :=
  load_steinmetz_data_ok _ _ (by simp) (by simp)

/-- Claim C10: when the named local file is absent, `load_steinmetz_data`
does not return a value: the file-open error propagates to the caller
uncaught. -/
theorem load_steinmetz_data_missing_file {α : Type}
    (fs : String → Option (List (String × α))) (hfs : fs fname = none) :
    load_steinmetz_data fs fname =
      Except.error (PyError.fileNotFoundError fname) := by
  simp [load_steinmetz_data, np_load, hfs]

/-- Witness for C10 on the empty filesystem. -/
theorem load_steinmetz_data_missing_file_witness :
    load_steinmetz_data (fun _ => (none : Option (List (String × Nat)))) fname =
      Except.error (PyError.fileNotFoundError fname) :=
  load_steinmetz_data_missing_file (fun _ => none) rfl

/-- Claim C5: the shipped `sigmoid` raises NotImplementedError for every
input before computing anything, and the shipped `compute_accuracy`
raises NotImplementedError for every (X, y, model) triple. -/
theorem stubs_raise_notImplemented :
    (∀ z : ℝ, sigmoid z = Except.error (PyError.notImplementedError
        "Student exercise: implement the sigmoid function")) ∧
    (∀ (X : List (List ℝ)) (y : List ℝ) (model : SKModel),
      compute_accuracy X y model = Except.error (PyError.notImplementedError
        "Implement the compute_accuracy function")) :=
  ⟨fun _ => rfl, fun _ _ _ => rfl⟩

/-- Claim C2: for every finite real scalar or array input, the
spec-modelled sigmoid returns 1/(1+exp(-z)) elementwise and its output is
strictly within (0,1). -/
theorem sigmoid_spec_value_range (z : ℝ) (zs : List ℝ) (w : ℝ)
    (hw : w ∈ sigmoid_vec zs) :
    (sigmoid_spec z = 1 / (1 + Real.exp (-z)) ∧
      0 < sigmoid_spec z ∧ sigmoid_spec z < 1) ∧
    (0 < w ∧ w < 1) := by
  have key : ∀ x : ℝ, 0 < sigmoid_spec x ∧ sigmoid_spec x < 1 := by
    intro x
    have hx : (0 : ℝ) < 1 + Real.exp (-x) := by positivity
    constructor
    · unfold sigmoid_spec; positivity
    · unfold sigmoid_spec
      rw [div_lt_one hx]
      have := Real.exp_pos (-x)
      linarith
  refine ⟨⟨rfl, key z⟩, ?_⟩
  have hw2 : w ∈ zs.map sigmoid_spec := hw
  obtain ⟨x, _hx, rfl⟩ := List.mem_map.mp hw2
  exact key x

/-- Witness for C2 at the scalar 0 and the one-element array [0]. -/
theorem sigmoid_spec_value_range_witness :
    ((sigmoid_spec 0 = 1 / (1 + Real.exp (-0)) ∧
      0 < sigmoid_spec 0 ∧ sigmoid_spec 0 < 1) ∧
    (0 < sigmoid_spec 0 ∧ sigmoid_spec 0 < 1)) :=
  sigmoid_spec_value_range 0 [0] (sigmoid_spec 0)
    (List.mem_map.mpr ⟨0, List.mem_singleton.mpr rfl, rfl⟩)

/-- Claim C6: for every real z, sigmoid(-z) = 1 - sigmoid(z), and
sigmoid(0) = 0.5. -/
theorem sigmoid_spec_reflection (z : ℝ) :
    sigmoid_spec (-z) = 1 - sigmoid_spec z ∧ sigmoid_spec 0 = 1 / 2 := by
  constructor
  · unfold sigmoid_spec
    rw [neg_neg]
    have h1 : (0 : ℝ) < 1 + Real.exp z := by positivity
    have h2 : (0 : ℝ) < 1 + Real.exp (-z) := by positivity
    have h3 : Real.exp (-z) * Real.exp z = 1 := by
      rw [← Real.exp_add]; simp
    field_simp
    nlinarith [h3]
  · unfold sigmoid_spec
    norm_num [Real.exp_zero]

/-- Claim C7: the sigmoid is monotonically increasing: z1 < z2 implies
sigmoid(z1) < sigmoid(z2). -/
theorem sigmoid_spec_strictMono (z1 z2 : ℝ) (h : z1 < z2) :
    sigmoid_spec z1 < sigmoid_spec z2 := by
  unfold sigmoid_spec
  have he : Real.exp (-z2) < Real.exp (-z1) := Real.exp_lt_exp.mpr (by linarith)
  have h1 : (0 : ℝ) < 1 + Real.exp (-z1) := by positivity
  have h2 : (0 : ℝ) < 1 + Real.exp (-z2) := by positivity
  rw [div_lt_div_iff₀ h1 h2]
  nlinarith

/-- Witness for C7 at the pair 0 < 1. -/
theorem sigmoid_spec_strictMono_witness : sigmoid_spec 0 < sigmoid_spec 1 :=
  sigmoid_spec_strictMono 0 1 zero_lt_one

/-- Claim C3 as stated fails at the empty input: on the empty pair of
equal-length vectors the scorer returns 0, not 1, for identical inputs. -/
theorem accuracy_empty_self_cex :
    accuracy ([] : List Bool) [] ≠ Except.ok 1 := by
  simp [accuracy, countMatches]

/-- Claim C3 (amended: the identity value 1.0 requires a nonempty
vector): for equal-length nonempty vectors the scorer returns the
fraction of matching positions, a value in [0,1]; on identical vectors it
returns 1 and on complemented binary vectors it returns 0. -/
theorem accuracy_fraction_bounds (yPred yTrue : List Bool)
    (hlen : yPred.length = yTrue.length) (hne : yTrue ≠ []) :
    (accuracy yPred yTrue =
        Except.ok ((countMatches yPred yTrue : ℚ) / (yTrue.length : ℚ)) ∧
      ∃ q : ℚ, accuracy yPred yTrue = Except.ok q ∧ 0 ≤ q ∧ q ≤ 1) ∧
    accuracy yTrue yTrue = Except.ok 1 ∧
    accuracy (yTrue.map not) yTrue = Except.ok 0 := by
  have hpos : 0 < yTrue.length := List.length_pos.mpr hne
  have hq : (0 : ℚ) < (yTrue.length : ℚ) := by exact_mod_cast hpos
  have hval : accuracy yPred yTrue =
      Except.ok ((countMatches yPred yTrue : ℚ) / (yTrue.length : ℚ)) := by
    simp [accuracy, hlen]
  refine ⟨⟨hval, ⟨_, hval, ?_, ?_⟩⟩, ?_, ?_⟩
  · exact div_nonneg (by exact_mod_cast Nat.zero_le _) (le_of_lt hq)
  · rw [div_le_one hq]
    exact_mod_cast countMatches_le yPred yTrue
  · rw [accuracy, if_pos rfl, countMatches_self, div_self (ne_of_gt hq)]
  · have hl : (yTrue.map not).length = yTrue.length := List.length_map yTrue not
    rw [accuracy, if_pos hl, countMatches_map_not]
    simp

/-- Witness for C3 (amended) at concrete one-element vectors. -/
theorem accuracy_fraction_bounds_witness :
    (accuracy [true] [false] =
        Except.ok ((countMatches [true] [false] : ℚ) /
          (([false] : List Bool).length : ℚ)) ∧
      ∃ q : ℚ, accuracy [true] [false] = Except.ok q ∧ 0 ≤ q ∧ q ≤ 1) ∧
    accuracy [false] [false] = Except.ok 1 ∧
    accuracy (([false] : List Bool).map not) [false] = Except.ok 0 :=
  accuracy_fraction_bounds [true] [false] rfl (List.cons_ne_nil false [])

/-- Claim C4: for every pair of label vectors whose lengths differ, the
scorer fails with the InvalidInput error condition. -/
theorem accuracy_length_mismatch (yPred yTrue : List Bool)
    (h : yPred.length ≠ yTrue.length) :
    accuracy yPred yTrue = Except.error AccError.invalidInput := by
  simp [accuracy, h]

/-- Witness for C4 at a concrete mismatched pair. -/
theorem accuracy_length_mismatch_witness :
    accuracy [true] ([] : List Bool) = Except.error AccError.invalidInput :=
  accuracy_length_mismatch [true] [] (by decide)
